import Mathlib

/-!
Shallow embedding of the uni-payment core (Django app `paymentorg`):
the QR signature service, the payment-request lifecycle (creation,
redemption), the duplicate-fee guard, the promotion/demotion authority,
and a small interleaving model for the concurrent-redemption path.

Sources embedded (file and function named at each definition):
  projectsite/paymentorg/views.py   (signature helpers, QR generation,
                                     redemption, bulk posting, promotion)
  projectsite/paymentorg/models.py  (PaymentRequest, Payment)
  projectsite/paymentorg/forms.py   (OfficerPaymentProcessForm)

Monetary amounts are Django `Decimal` values with two decimal places; they
are embedded as integer numbers of centavos (`Int`), on which Decimal
addition/subtraction is exact.
-/

set_option maxRecDepth 100000

namespace UniPay

/-! ### UTF-8 encoding

`create_signature` in views.py encodes the key and the message with
`.encode('utf-8')`; this is the standard UTF-8 encoding of a string as a
byte list (each byte a `Nat < 256`). -/

def utf8EncodeChar (c : Char) : List Nat :=
  let n := c.toNat
  if n < 0x80 then [n]
  else if n < 0x800 then
    [0xC0 ||| (n >>> 6), 0x80 ||| (n &&& 0x3F)]
  else if n < 0x10000 then
    [0xE0 ||| (n >>> 12), 0x80 ||| ((n >>> 6) &&& 0x3F), 0x80 ||| (n &&& 0x3F)]
  else
    [0xF0 ||| (n >>> 18), 0x80 ||| ((n >>> 12) &&& 0x3F),
     0x80 ||| ((n >>> 6) &&& 0x3F), 0x80 ||| (n &&& 0x3F)]

def utf8 (s : String) : List Nat :=
  (s.toList.map utf8EncodeChar).flatten

/-! ### SHA-256 and HMAC-SHA256

views.py line 63 computes `hmac.new(secret_key, message, hashlib.sha256)`.
The Python standard library's `hashlib.sha256`/`hmac` are external to the
repository; they are embedded here as the FIPS 180-4 SHA-256 and RFC 2104
HMAC algorithms, executable over byte lists, with 32-bit words as `Nat`
reduced modulo 2^32. -/

def w32 : Nat := 4294967296

def add32 (a b : Nat) : Nat := (a + b) % w32

def rotr32 (n x : Nat) : Nat := ((x >>> n) ||| (x <<< (32 - n))) &&& 0xFFFFFFFF

def bigSigma0 (x : Nat) : Nat := (rotr32 2 x) ^^^ (rotr32 13 x) ^^^ (rotr32 22 x)

def bigSigma1 (x : Nat) : Nat := (rotr32 6 x) ^^^ (rotr32 11 x) ^^^ (rotr32 25 x)

def smallSigma0 (x : Nat) : Nat := (rotr32 7 x) ^^^ (rotr32 18 x) ^^^ (x >>> 3)

def smallSigma1 (x : Nat) : Nat := (rotr32 17 x) ^^^ (rotr32 19 x) ^^^ (x >>> 10)

def chWord (x y z : Nat) : Nat := (x &&& y) ^^^ ((0xFFFFFFFF ^^^ x) &&& z)

def majWord (x y z : Nat) : Nat := (x &&& y) ^^^ (x &&& z) ^^^ (y &&& z)

def sha256K : List Nat :=
  [1116352408, 1899447441, 3049323471, 3921009573, 961987163, 1508970993,
   2453635748, 2870763221, 3624381080, 310598401, 607225278, 1426881987,
   1925078388, 2162078206, 2614888103, 3248222580, 3835390401, 4022224774,
   264347078, 604807628, 770255983, 1249150122, 1555081692, 1996064986,
   2554220882, 2821834349, 2952996808, 3210313671, 3336571891, 3584528711,
   113926993, 338241895, 666307205, 773529912, 1294757372, 1396182291,
   1695183700, 1986661051, 2177026350, 2456956037, 2730485921, 2820302411,
   3259730800, 3345764771, 3516065817, 3600352804, 4094571909, 275423344,
   430227734, 506948616, 659060556, 883997877, 958139571, 1322822218,
   1537002063, 1747873779, 1955562222, 2024104815, 2227730452, 2361852424,
   2428436474, 2756734187, 3204031479, 3329325298]

structure Hash8 where
  a : Nat
  b : Nat
  c : Nat
  d : Nat
  e : Nat
  f : Nat
  g : Nat
  h : Nat
deriving DecidableEq

def sha256H0 : Hash8 :=
  ⟨1779033703, 3144134277, 1013904242, 2773480762, 1359893119, 2600822924, 528734635, 1541459225⟩

def shaPad (msg : List Nat) : List Nat :=
  let len := msg.length
  let bitLen := 8 * len
  let zeros := (120 - ((len + 1) % 64)) % 64
  msg ++ [0x80] ++ List.replicate zeros 0 ++
    [(bitLen >>> 56) &&& 0xFF, (bitLen >>> 48) &&& 0xFF, (bitLen >>> 40) &&& 0xFF,
     (bitLen >>> 32) &&& 0xFF, (bitLen >>> 24) &&& 0xFF, (bitLen >>> 16) &&& 0xFF,
     (bitLen >>> 8) &&& 0xFF, bitLen &&& 0xFF]

def chunks64Aux : Nat → List Nat → List (List Nat)
  | 0, _ => []
  | _, [] => []
  | fuel + 1, l => l.take 64 :: chunks64Aux fuel (l.drop 64)

def chunks64 (l : List Nat) : List (List Nat) :=
  chunks64Aux l.length l

def bytesToWords (l : List Nat) : List Nat :=
  match l with
  | b0 :: b1 :: b2 :: b3 :: rest =>
      ((b0 <<< 24) ||| (b1 <<< 16) ||| (b2 <<< 8) ||| b3) :: bytesToWords rest
  | _ => []

def extendWords (ws : List Nat) : List Nat :=
  (List.range 48).foldl
    (fun w _ =>
      let n := w.length
      let nw := (smallSigma1 (w.getD (n - 2) 0) + w.getD (n - 7) 0 +
                 smallSigma0 (w.getD (n - 15) 0) + w.getD (n - 16) 0) % w32
      w ++ [nw])
    ws

def shaRound (st : Hash8) (kw : Nat × Nat) : Hash8 :=
  let t1 := (st.h + bigSigma1 st.e + chWord st.e st.f st.g + kw.1 + kw.2) % w32
  let t2 := (bigSigma0 st.a + majWord st.a st.b st.c) % w32
  ⟨(t1 + t2) % w32, st.a, st.b, st.c, (st.d + t1) % w32, st.e, st.f, st.g⟩

def compressBlock (st : Hash8) (block : List Nat) : Hash8 :=
  let ws := extendWords (bytesToWords block)
  let r := (sha256K.zip ws).foldl shaRound st
  ⟨add32 st.a r.a, add32 st.b r.b, add32 st.c r.c, add32 st.d r.d,
   add32 st.e r.e, add32 st.f r.f, add32 st.g r.g, add32 st.h r.h⟩

def word4 (x : Nat) : List Nat :=
  [(x >>> 24) &&& 0xFF, (x >>> 16) &&& 0xFF, (x >>> 8) &&& 0xFF, x &&& 0xFF]

def sha256Bytes (msg : List Nat) : List Nat :=
  let fin := (chunks64 (shaPad msg)).foldl compressBlock sha256H0
  word4 fin.a ++ word4 fin.b ++ word4 fin.c ++ word4 fin.d ++
  word4 fin.e ++ word4 fin.f ++ word4 fin.g ++ word4 fin.h

def hexChar (n : Nat) : Char :=
  if n < 10 then Char.ofNat (48 + n) else Char.ofNat (87 + n)

def hexDigest (bytes : List Nat) : String :=
  String.mk ((bytes.map (fun b => [hexChar (b >>> 4), hexChar (b &&& 0xF)])).flatten)

def hmacSha256 (key msg : List Nat) : List Nat :=
  let k0 := if 64 < key.length then sha256Bytes key else key
  let kp := k0 ++ List.replicate (64 - k0.length) 0
  let ipad := kp.map (fun b => b ^^^ 0x36)
  let opad := kp.map (fun b => b ^^^ 0x5C)
  sha256Bytes (opad ++ sha256Bytes (ipad ++ msg))

/-! ### Signature service (views.py lines 49-67)

`create_signature(message_string)` uses the configured secret
`settings.QR_SIGNATURE_KEY` (boot-time configuration, not part of the
repository), so the embedding takes the key as an explicit parameter.
`validate_signature` recomputes and compares with `hmac.compare_digest`,
whose result equals string equality. -/

def create_signature (key message_string : String) : String :=
  hexDigest (hmacSha256 (utf8 key) (utf8 message_string))

def validate_signature (key message_string provided_signature : String) : Bool :=
  create_signature key message_string == provided_signature

/-! ### Data model (models.py)

`PaymentRequest` (models.py lines 629-741) and `Payment` (lines 743-890),
restricted to the fields the claims mention.  `request_id` is a UUID
rendered in its canonical string form.  Students, organizations, fee types
are identified by their primary keys (`Nat`). -/

inductive ReqStatus
  | pending
  | paid
  | cancelled
  | expired
deriving DecidableEq

inductive PayStatus
  | completed
  | void
deriving DecidableEq

structure PaymentRequestRec where
  request_id : String
  student : Nat
  organization : Nat
  fee_type : Nat
  amount : Int
  payment_method : String
  status : ReqStatus
  qr_signature : String
  expires_at : Int
  paid_at : Option Int
deriving DecidableEq

structure PaymentRec where
  payment_request : Option String
  student : Nat
  organization : Nat
  fee_type : Nat
  amount : Int
  amount_received : Int
  change_given : Int
  or_number : String
  payment_method : String
  pay_status : PayStatus
  is_void : Bool
deriving DecidableEq

structure DB where
  requests : List PaymentRequestRec
  payments : List PaymentRec
deriving DecidableEq

/-- models.py lines 720-722, `PaymentRequest.is_expired`:
`timezone.now() > self.expires_at and self.status == 'PENDING'`. -/
def is_expired (r : PaymentRequestRec) (now : Int) : Bool :=
  r.expires_at < now && r.status == ReqStatus.pending

/-- models.py lines 724-728, `PaymentRequest.mark_as_paid`. -/
def mark_as_paid (r : PaymentRequestRec) (now : Int) : PaymentRequestRec :=
  { r with status := ReqStatus.paid, paid_at := some now }

/-- models.py lines 876-880, `Payment.save`: `change_given` is set to
`amount_received - amount` only when both are truthy (a `Decimal` is falsy
exactly when it is zero); otherwise the field keeps its previous value
(default `0.00`). -/
def paymentSave (p : PaymentRec) : PaymentRec :=
  if p.amount_received ≠ 0 ∧ p.amount ≠ 0 then
    { p with change_given := p.amount_received - p.amount }
  else p

/-! ### Duplicate-fee lookups (views.py lines 1334-1336, 1389-1396, 1903-1917) -/

def hasPendingRequest (db : DB) (s f : Nat) : Bool :=
  db.requests.any fun r =>
    r.student == s && r.fee_type == f && r.status == ReqStatus.pending

/-- `Payment.objects.filter(student=..., fee_type=..., status='COMPLETED')`
(the check used by both student QR-generation flows; it does not exclude
voided rows). -/
def hasCompletedPayment (db : DB) (s f : Nat) : Bool :=
  db.payments.any fun p =>
    p.student == s && p.fee_type == f && p.pay_status == PayStatus.completed

/-- `Payment.objects.filter(fee_type=..., status='COMPLETED', is_void=False)`
(the exclusion used by the bulk-posting fan-out). -/
def hasCompletedNonVoidPayment (db : DB) (s f : Nat) : Bool :=
  db.payments.any fun p =>
    p.student == s && p.fee_type == f && p.pay_status == PayStatus.completed && !p.is_void

/-! ### Creation operations -/

structure FeeTypeRec where
  id : Nat
  organization : Nat
  amount : Int
deriving DecidableEq

inductive CreateError
  | duplicateFeeRequest
  | notApplicable
deriving DecidableEq

inductive CreateOutcome
  | created (r : PaymentRequestRec)
  | rejected (e : CreateError)
deriving DecidableEq

/-- views.py lines 1329-1360, `GenerateQRPaymentView.form_valid`:
rejects when a PENDING request or COMPLETED payment exists for
(student, fee_type); otherwise snapshots the amount, disables expiry by
setting `expires_at = timezone.now()`, and mints
`qr_signature = create_signature(str(payment_request.request_id))`.
`freshRid` is `str()` of the new row's UUID `request_id`. -/
def generate_qr (key : String) (db : DB) (student : Nat) (fee : FeeTypeRec)
    (freshRid : String) (now : Int) : CreateOutcome × DB :=
  if hasPendingRequest db student fee.id || hasCompletedPayment db student fee.id then
    (CreateOutcome.rejected CreateError.duplicateFeeRequest, db)
  else
    let r : PaymentRequestRec :=
      { request_id := freshRid
        student := student
        organization := fee.organization
        fee_type := fee.id
        amount := fee.amount
        payment_method := "CASH"
        status := ReqStatus.pending
        qr_signature := create_signature key freshRid
        expires_at := now
        paid_at := none }
    (CreateOutcome.created r, { db with requests := r :: db.requests })

/-- views.py lines 1366-1441, `QuickGenerateQRView.post`: checks fee
applicability, then an existing PENDING request, then an existing
COMPLETED payment (both rejections leave the state unchanged); otherwise
creates the request with `expires_at = timezone.now()` and
`qr_signature = create_signature(uuid.uuid4().hex[:12])` — the signed
message is the fresh random 12-hex-character `nonce`, not the request id. -/
def quick_generate_qr (key : String) (db : DB) (student : Nat) (fee : FeeTypeRec)
    (applicable : Bool) (freshRid nonce : String) (now : Int) : CreateOutcome × DB :=
  if !applicable then
    (CreateOutcome.rejected CreateError.notApplicable, db)
  else if hasPendingRequest db student fee.id then
    (CreateOutcome.rejected CreateError.duplicateFeeRequest, db)
  else if hasCompletedPayment db student fee.id then
    (CreateOutcome.rejected CreateError.duplicateFeeRequest, db)
  else
    let r : PaymentRequestRec :=
      { request_id := freshRid
        student := student
        organization := fee.organization
        fee_type := fee.id
        amount := fee.amount
        payment_method := "CASH"
        status := ReqStatus.pending
        qr_signature := create_signature key nonce
        expires_at := now
        paid_at := none }
    (CreateOutcome.created r, { db with requests := r :: db.requests })

/-- views.py lines 1928-1963, `PostBulkPaymentView.post` (creation loop):
the eligible set is the (distinct) scoped students minus those with a
completed non-void payment or a pending request for the fee; one PENDING
request is created per eligible student with the posted amount and
`qr_signature=''` (left empty deliberately, per the source comment, to be
generated when the student later clicks "Generate QR").  `rids` supplies
`str()` of each new row's UUID. -/
def bulkEligible (db : DB) (fee : FeeTypeRec) (students : List Nat) : List Nat :=
  students.dedup.filter fun s =>
    !hasCompletedNonVoidPayment db s fee.id && !hasPendingRequest db s fee.id

def bulkRequestFor (fee : FeeTypeRec) (rids : Nat → String) (expiresAt : Int)
    (s : Nat) : PaymentRequestRec :=
  { request_id := rids s
    student := s
    organization := fee.organization
    fee_type := fee.id
    amount := fee.amount
    payment_method := "CASH"
    status := ReqStatus.pending
    qr_signature := ""
    expires_at := expiresAt
    paid_at := none }

def post_bulk_payment (db : DB) (fee : FeeTypeRec) (students : List Nat)
    (rids : Nat → String) (expiresAt : Int) : DB × Nat :=
  let elig := bulkEligible db fee students
  let newReqs := elig.map (bulkRequestFor fee rids expiresAt)
  ({ db with requests := newReqs ++ db.requests }, elig.length)

/-! ### Redemption (views.py lines 1581-1725, `ProcessPaymentRequestView`) -/

structure RedeemOfficer where
  id : Nat
  organization : Nat
  accessibleOrgIds : List Nat
deriving DecidableEq

structure UserCtx where
  isSuperuser : Bool
  officer : Option RedeemOfficer
deriving DecidableEq

inductive RedeemError
  | notFound
  | invalidSignature
  | notOfficer
  | wrongOrganization
  | alreadyProcessed (st : ReqStatus)
  | insufficientAmount
  | expired
deriving DecidableEq

def findRequest (db : DB) (rid : String) : Option PaymentRequestRec :=
  db.requests.find? fun r => r.request_id == rid

instance instDecEqExcept {ε α : Type} [DecidableEq ε] [DecidableEq α] :
    DecidableEq (Except ε α) := fun a b =>
  match a, b with
  | Except.error e1, Except.error e2 =>
    if h : e1 = e2 then isTrue (by rw [h])
    else isFalse (by intro hc; cases hc; exact h rfl)
  | Except.ok a1, Except.ok a2 =>
    if h : a1 = a2 then isTrue (by rw [h])
    else isFalse (by intro hc; cases hc; exact h rfl)
  | Except.error _, Except.ok _ => isFalse (by intro hc; cases hc)
  | Except.ok _, Except.error _ => isFalse (by intro hc; cases hc)

/-- views.py lines 1584-1633, `ProcessPaymentRequestView.get_payment_request`:
look up by request id; validate the signature against `str(request_id)`
only; non-superusers must hold an officer profile whose accessible
organization ids contain the request's organization; the request must still
be PENDING.  The expiry check present in earlier revisions is disabled
(source comment "Expiration disabled"): no branch inspects `expires_at`.
`accessibleOrgIds` carries the officer's
`organization.get_accessible_organization_ids()` (the Organization
hierarchy methods are not part of src/). -/
def orgScopeOk (user : UserCtx) (req : PaymentRequestRec) :
    Except RedeemError Unit :=
  if user.isSuperuser then Except.ok ()
  else
    match user.officer with
    | none => Except.error RedeemError.notOfficer
    | some o =>
      if req.organization ∈ o.accessibleOrgIds then Except.ok ()
      else Except.error RedeemError.wrongOrganization

def get_payment_request (key : String) (db : DB) (rid sig : String)
    (user : UserCtx) : Except RedeemError PaymentRequestRec :=
  match findRequest db rid with
  | none => Except.error RedeemError.notFound
  | some req =>
    if !validate_signature key req.request_id sig then
      Except.error RedeemError.invalidSignature
    else
      match orgScopeOk user req with
      | Except.error e => Except.error e
      | Except.ok _ =>
        if req.status ≠ ReqStatus.pending then
          Except.error (RedeemError.alreadyProcessed req.status)
        else
          Except.ok req

def stripDashesUpper12 (rid : String) : String :=
  String.mk (((rid.toList.filter fun c => c ≠ '-').map Char.toUpper).take 12)

def orNumberExists (db : DB) (orn : String) : Bool :=
  db.payments.any fun p => p.or_number == orn

/-- views.py lines 1669-1674: `or_number` is
`f"OR-{str(request_id).replace('-', '').upper()[:12]}"`, with
`-<unix timestamp>` appended when that number is already taken. -/
def makeOrNumber (db : DB) (rid : String) (ts : Int) : String :=
  let orn := "OR-" ++ stripDashesUpper12 rid
  if orNumberExists db orn then
    "OR-" ++ stripDashesUpper12 rid ++ "-" ++ toString ts
  else orn

inductive RedeemOutcome
  | success (p : PaymentRec)
  | failure (e : RedeemError)
deriving DecidableEq

/-- forms.py lines 404-416, `OfficerPaymentProcessForm.clean_amount_received`:
rejects when `fee_amount` is truthy (nonzero) and `amount_received` is below
it. -/
def amountReceivedValid (feeAmount amountReceived : Int) : Bool :=
  !(feeAmount ≠ 0 && amountReceived < feeAmount)

/-- views.py lines 1676-1691: the `Payment` row built on redemption —
`Payment.objects.create(...)` (whose initial save computes the change per
`Payment.save`) with the derived OR number, followed by the redundant
`payment.save()` (idempotent: `paymentSave` recomputes the same change). -/
def redeemPayment (db : DB) (req : PaymentRequestRec) (amount_received : Int)
    (payment_method : String) (ts : Int) : PaymentRec :=
  paymentSave
    { payment_request := some req.request_id
      student := req.student
      organization := req.organization
      fee_type := req.fee_type
      amount := req.amount
      amount_received := amount_received
      change_given := 0
      or_number := makeOrNumber db req.request_id ts
      payment_method := payment_method
      pay_status := PayStatus.completed
      is_void := false }

/-- views.py lines 1654-1696, `ProcessPaymentRequestView.post`: re-runs
`get_payment_request`, validates the form, derives the OR number, creates
the `Payment` (whose `save` computes the change), and flips the request to
PAID via `mark_as_paid`.  No branch consults `expires_at` or produces an
`Expired` outcome. -/
def process_payment (key : String) (db : DB) (rid sig : String) (user : UserCtx)
    (amount_received : Int) (payment_method notes : String) (now ts : Int) :
    RedeemOutcome × DB :=
  match get_payment_request key db rid sig user with
  | Except.error e => (RedeemOutcome.failure e, db)
  | Except.ok req =>
    if !amountReceivedValid req.amount amount_received then
      (RedeemOutcome.failure RedeemError.insufficientAmount, db)
    else
      let payment := redeemPayment db req amount_received payment_method ts
      let req2 := mark_as_paid req now
      (RedeemOutcome.success payment,
        { requests := db.requests.map fun r =>
            if r.request_id == req.request_id then req2 else r
          payments := payment :: db.payments })

/-! ### Duplicate-fee invariant (claim C3)

"At most one PENDING request per (student, fee_type), and no PENDING
request alongside a completed (non-void) Payment for the same fee type." -/

def pendingPairCount (db : DB) (s f : Nat) : Nat :=
  (db.requests.filter fun r =>
    r.student == s && r.fee_type == f && r.status == ReqStatus.pending).length

def InvariantDB (db : DB) : Prop :=
  ∀ r ∈ db.requests, r.status = ReqStatus.pending →
    pendingPairCount db r.student r.fee_type ≤ 1 ∧
    hasCompletedNonVoidPayment db r.student r.fee_type = false

instance (db : DB) : Decidable (InvariantDB db) := by
  unfold InvariantDB; infer_instance

/-! ### Interleaving model of concurrent redemption (claim C2)

views.py's redemption is two phases against the shared store:
a *read* phase (`get_payment_request`: a plain `get_object_or_404` read of
the row followed by the `status != 'PENDING'` test — no `select_for_update`,
no conditional update), and a *commit* phase inside `@transaction.atomic`
(`Payment.objects.create` + `mark_as_paid`).  `Payment.payment_request` is
a `OneToOneField` (models.py line 747), so the store's unique constraint
rejects a second committed Payment for the same request with an
IntegrityError; `or_number` (unique) collides identically.  Each attempt
is an officer for whom signature and organization checks pass; an attempt
whose read phase fails never reaches its commit (the view redirects). -/

inductive ConcOutcome
  | success
  | alreadyProcessed
  | integrityError
deriving DecidableEq

inductive ConcEv
  | read (i : Nat)
  | commit (i : Nat)
deriving DecidableEq

structure ConcState where
  paid : Bool
  readSet : List Nat
  outcomes : List (Nat × ConcOutcome)
deriving DecidableEq

def concStep (st : ConcState) : ConcEv → ConcState
  | ConcEv.read i =>
    if st.paid then
      { st with outcomes := (i, ConcOutcome.alreadyProcessed) :: st.outcomes }
    else
      { st with readSet := i :: st.readSet }
  | ConcEv.commit i =>
    if i ∈ st.readSet then
      if st.paid then
        { st with outcomes := (i, ConcOutcome.integrityError) :: st.outcomes }
      else
        { st with paid := true, outcomes := (i, ConcOutcome.success) :: st.outcomes }
    else st

def concInit : ConcState := ⟨false, [], []⟩

def concExec (evs : List ConcEv) : ConcState :=
  evs.foldl concStep concInit

def countSuccess (st : ConcState) : Nat :=
  (st.outcomes.filter fun po => po.2 == ConcOutcome.success).length

/-! ### Promotion / demotion authority (views.py lines 230-556) -/

structure CapFlags where
  can_process_payments : Bool
  can_void_payments : Bool
  can_generate_reports : Bool
  can_promote_officers : Bool
  is_super_officer : Bool
deriving DecidableEq

structure OfficerEntry where
  organization : Nat
  role : String
  flags : CapFlags
deriving DecidableEq

structure Actor where
  isSuperuser : Bool
  isStaff : Bool
  officer : Option OfficerEntry
deriving DecidableEq

/-- Officer profiles per user id and the denormalized `UserProfile.is_officer`
flag per user id. -/
structure PromoState where
  officers : List (Nat × OfficerEntry)
  profiles : List (Nat × Bool)
deriving DecidableEq

def officerLookup (st : PromoState) (u : Nat) : Option OfficerEntry :=
  (st.officers.find? fun p => p.1 == u).map Prod.snd

def profileLookup (st : PromoState) (u : Nat) : Option Bool :=
  (st.profiles.find? fun p => p.1 == u).map Prod.snd

def setAssoc {α : Type} (l : List (Nat × α)) (u : Nat) (v : α) : List (Nat × α) :=
  if l.any fun p => p.1 == u then
    l.map fun p => if p.1 == u then (u, v) else p
  else (u, v) :: l

def removeAssoc {α : Type} (l : List (Nat × α)) (u : Nat) : List (Nat × α) :=
  l.filter fun p => p.1 ≠ u

/-- views.py lines 234-242 (and 453-461), `test_func`: staff, or an officer
with `can_promote_officers` or `is_super_officer`. -/
def promoteTestFunc (a : Actor) : Bool :=
  a.isStaff ||
    (match a.officer with
     | some o => o.flags.can_promote_officers || o.flags.is_super_officer
     | none => false)

inductive PromoteOutcome
  | denied
  | ownOrgOnly
  | promoted (flags : CapFlags) (created : Bool)
deriving DecidableEq

/-- views.py lines 330-440, `PromoteStudentToOfficerView.post`: for a
non-superuser actor holding an officer profile, the target organization
must be the actor's own; a requested `can_promote_officers` the actor does
not hold is downgraded to False with a warning message (lines 378-381), as
is a requested `is_super_officer` when the actor is neither superuser nor
super officer (lines 383-386) — the promotion then proceeds via
`Officer.objects.update_or_create` and sets `UserProfile.is_officer=True`.
No branch rejects the promotion over a requested capability. -/
def promote_student (a : Actor) (st : PromoState) (targetUser : Nat)
    (organization : Nat) (role : String) (fl : CapFlags) :
    PromoteOutcome × PromoState :=
  if !promoteTestFunc a then (PromoteOutcome.denied, st)
  else
    let granted : Except Unit CapFlags :=
      if a.isSuperuser then Except.ok fl
      else
        match a.officer with
        | some o =>
          if organization ≠ o.organization then Except.error ()
          else
            Except.ok
              { fl with
                can_promote_officers :=
                  fl.can_promote_officers && o.flags.can_promote_officers
                is_super_officer :=
                  fl.is_super_officer && (a.isSuperuser || o.flags.is_super_officer) }
        | none => Except.ok fl
    match granted with
    | Except.error _ => (PromoteOutcome.ownOrgOnly, st)
    | Except.ok fl2 =>
      let created := (officerLookup st targetUser).isNone
      let entry : OfficerEntry :=
        { organization := organization, role := role, flags := fl2 }
      (PromoteOutcome.promoted fl2 created,
        { officers := setAssoc st.officers targetUser entry
          profiles := setAssoc st.profiles targetUser true })

inductive DemoteOutcome
  | denied
  | notAnOfficer
  | noPermission
  | demoted
deriving DecidableEq

/-- views.py lines 517-526: the organization-scope check of the demote view
(`accessible_org_ids` of the actor's organization must contain the target
officer's organization), skipped for superusers and for non-officer staff. -/
def demoteScopeOk (a : Actor) (actorAccessible : List Nat)
    (oe : OfficerEntry) : Bool :=
  if a.isSuperuser then true
  else
    match a.officer with
    | some _ => decide (oe.organization ∈ actorAccessible)
    | none => true

/-- views.py lines 447-556, `DemoteOfficerToStudentView.post`: non-superuser
actors may only demote inside their accessible-organization set; the
Officer row is deleted entirely (`officer.delete()`) and
`UserProfile.is_officer` is set to False.  `actorAccessible` carries the
actor's `organization.get_accessible_organization_ids()`. -/
def demote_officer (a : Actor) (actorAccessible : List Nat) (st : PromoState)
    (targetUser : Nat) : DemoteOutcome × PromoState :=
  if !promoteTestFunc a then (DemoteOutcome.denied, st)
  else
    match officerLookup st targetUser with
    | none => (DemoteOutcome.notAnOfficer, st)
    | some oe =>
      if !demoteScopeOk a actorAccessible oe then (DemoteOutcome.noPermission, st)
      else
        (DemoteOutcome.demoted,
          { officers := removeAssoc st.officers targetUser
            profiles := setAssoc st.profiles targetUser false })

/-! ### Organization hierarchy (claim C6) -/

inductive HLevel
  | program
  | college
deriving DecidableEq

structure OrgNode where
  id : Nat
  hierarchy_level : HLevel
  program_affiliation : Option String
  parent : Option Nat
deriving DecidableEq

def childrenOf (arena : List OrgNode) (o : OrgNode) : List OrgNode :=
  arena.filter fun c => c.parent == some o.id

def programChildren (arena : List OrgNode) (o : OrgNode) : List OrgNode :=
  (childrenOf arena o).filter fun c => c.hierarchy_level == HLevel.program

/-- Modelled from the spec: `Organization.get_accessible_organizations` and
the `hierarchy_level`/`parent` fields it walks are not present in src/
(src/'s models.py predates them; views.py only calls them).  Spec section
4.2: for a COLLEGE-level node, itself plus all PROGRAM-level children; for
a PROGRAM-level node, itself only — unless its own affiliation is "ALL",
in which case it also inherits its children's scope, mirroring the
college-like fan-out. -/
def get_accessible_organizations (arena : List OrgNode) (o : OrgNode) :
    List OrgNode :=
  if o.hierarchy_level == HLevel.college then
    o :: programChildren arena o
  else if o.program_affiliation == some "ALL" then
    o :: programChildren arena o
  else [o]

/-! ### Concrete scenario data used by witnesses and counterexamples -/

def demoFee : FeeTypeRec := ⟨10, 3, 15000⟩

def emptyDb : DB := ⟨[], []⟩

def wRid : String := "3f2504e0-4f89-11d3-9a0c-0305e82c3301"

def wNonce : String := "a1b2c3d4e5f6"

def demoReq : PaymentRequestRec :=
  { request_id := wRid, student := 5, organization := 3, fee_type := 10
    amount := 15000, payment_method := "CASH", status := ReqStatus.pending
    qr_signature := create_signature "k" wRid, expires_at := 1000, paid_at := none }

def demoDb : DB := ⟨[demoReq], []⟩

def demoUser : UserCtx := ⟨false, some ⟨2, 3, [3]⟩⟩

def c3PendingReq : PaymentRequestRec :=
  { request_id := "r1", student := 5, organization := 3, fee_type := 10
    amount := 15000, payment_method := "CASH", status := ReqStatus.pending
    qr_signature := "", expires_at := 0, paid_at := none }

def c3PendingDb : DB := ⟨[c3PendingReq], []⟩

def c5Officer : OfficerEntry := ⟨1, "President", ⟨true, true, true, false, true⟩⟩

def c5Actor : Actor := ⟨false, false, some c5Officer⟩

def c5Flags : CapFlags := ⟨true, false, false, true, false⟩

/-- The quick-generation call of the C1 scenario: fresh request id `wRid`,
random nonce `wNonce` (the `uuid.uuid4().hex[:12]` value drawn by
`QuickGenerateQRView.post` when minting the signature). -/
def c1Quick : CreateOutcome × DB :=
  quick_generate_qr "k" emptyDb 5 demoFee true wRid wNonce 1000

def c1QuickReq : PaymentRequestRec :=
  { request_id := wRid, student := 5, organization := 3, fee_type := 10
    amount := 15000, payment_method := "CASH", status := ReqStatus.pending
    qr_signature := create_signature "k" wNonce, expires_at := 1000
    paid_at := none }

def superActor : Actor := ⟨true, true, none⟩

def c6College : OrgNode := ⟨1, HLevel.college, some "ALL", none⟩

def c6ProgramCS : OrgNode := ⟨2, HLevel.program, some "COMSCI", some 1⟩

def c6ProgramIT : OrgNode := ⟨3, HLevel.program, some "IT", some 1⟩

def c6Arena : List OrgNode := [c6College, c6ProgramCS, c6ProgramIT]

/-! ## Helper lemmas -/

lemma concStep_paid_mono (st : ConcState) (e : ConcEv) (h : st.paid = true) :
    (concStep st e).paid = true := by
  cases e <;> simp only [concStep] <;> split <;> simp_all

lemma concFold_paid_mono (evs : List ConcEv) (st : ConcState) (h : st.paid = true) :
    (evs.foldl concStep st).paid = true := by
  induction evs generalizing st with
  | nil => simpa using h
  | cons e evs ih =>
    simp only [List.foldl_cons]
    exact ih _ (concStep_paid_mono st e h)

lemma concStep_readSet_mono (st : ConcState) (e : ConcEv) (i : Nat)
    (h : i ∈ st.readSet) : i ∈ (concStep st e).readSet := by
  cases e with
  | read j =>
    simp only [concStep]
    split
    · exact h
    · exact List.mem_cons_of_mem _ h
  | commit j =>
    simp only [concStep]
    split
    · split <;> exact h
    · exact h

lemma concFold_readSet_mono (evs : List ConcEv) (st : ConcState) (i : Nat)
    (h : i ∈ st.readSet) : i ∈ (evs.foldl concStep st).readSet := by
  induction evs generalizing st with
  | nil => simpa using h
  | cons e evs ih =>
    simp only [List.foldl_cons]
    exact ih _ (concStep_readSet_mono st e i h)

lemma concStep_commit_paid (st : ConcState) (i : Nat) (h : i ∈ st.readSet) :
    (concStep st (ConcEv.commit i)).paid = true := by
  simp only [concStep, if_pos h]
  split <;> simp_all

lemma concStep_countSuccess (st : ConcState) (e : ConcEv)
    (h : countSuccess st = if st.paid then 1 else 0) :
    countSuccess (concStep st e) = if (concStep st e).paid then 1 else 0 := by
  cases e with
  | read j =>
    by_cases hp : st.paid <;>
      simp only [concStep, hp, if_true, if_false, countSuccess, List.filter_cons] <;>
      simp_all [countSuccess] <;> assumption
  | commit j =>
    by_cases hm : j ∈ st.readSet
    · by_cases hp : st.paid <;>
        simp only [concStep, if_pos hm, hp, if_true, if_false, countSuccess,
          List.filter_cons] <;>
        simp_all [countSuccess] <;> assumption
    · simp only [concStep, if_neg hm]
      exact h

lemma concFold_countSuccess (evs : List ConcEv) (st : ConcState)
    (h : countSuccess st = if st.paid then 1 else 0) :
    countSuccess (evs.foldl concStep st) =
      if (evs.foldl concStep st).paid then 1 else 0 := by
  induction evs generalizing st with
  | nil => simpa using h
  | cons e evs ih =>
    simp only [List.foldl_cons]
    exact ih _ (concStep_countSuccess st e h)

lemma conc_read_commit_paid (l1 l2 l3 : List ConcEv) (i : Nat) :
    (concExec (l1 ++ ConcEv.read i :: (l2 ++ ConcEv.commit i :: l3))).paid = true := by
  unfold concExec
  rw [List.foldl_append, List.foldl_cons]
  by_cases hp : (List.foldl concStep concInit l1).paid
  · exact concFold_paid_mono _ _ (concStep_paid_mono _ _ hp)
  · have h2 : i ∈ (concStep (List.foldl concStep concInit l1) (ConcEv.read i)).readSet := by
      simp [concStep, hp]
    rw [List.foldl_append, List.foldl_cons]
    exact concFold_paid_mono _ _
      (concStep_commit_paid _ i (concFold_readSet_mono _ _ _ h2))

lemma findRemove {α : Type} (l : List (Nat × α)) (u : Nat) :
    (removeAssoc l u).find? (fun p => p.1 == u) = none := by
  apply List.find?_eq_none.mpr
  intro x hx
  simp only [removeAssoc, List.mem_filter] at hx
  simp only [beq_iff_eq]
  exact of_decide_eq_true hx.2

lemma findSetMap {α : Type} (l : List (Nat × α)) (u : Nat) (v : α)
    (h : l.any (fun p => p.1 == u) = true) :
    ((l.map fun p => if p.1 == u then (u, v) else p).find?
        (fun p => p.1 == u)).map Prod.snd = some v := by
  induction l with
  | nil => simp at h
  | cons a l ih =>
    rw [List.any_cons] at h
    by_cases ha : a.1 = u
    · simp [List.find?_cons, ha]
    · have hb : (a.1 == u) = false := by simp [ha]
      have h2 : (l.any fun p => p.1 == u) = true := by simpa [hb] using h
      simp only [List.map_cons, hb, Bool.false_eq_true, if_false, List.find?_cons]
      exact ih h2

lemma findSet {α : Type} (l : List (Nat × α)) (u : Nat) (v : α) :
    ((setAssoc l u v).find? (fun p => p.1 == u)).map Prod.snd = some v := by
  unfold setAssoc
  split
  · exact findSetMap l u v (by assumption)
  · simp [List.find?_cons]

lemma hasCompletedNonVoid_le (db : DB) (s f : Nat)
    (h : hasCompletedNonVoidPayment db s f = true) :
    hasCompletedPayment db s f = true := by
  rw [hasCompletedNonVoidPayment, List.any_eq_true] at h
  obtain ⟨p, hp, hpred⟩ := h
  rw [hasCompletedPayment, List.any_eq_true]
  refine ⟨p, hp, ?_⟩
  simp only [Bool.and_eq_true] at hpred ⊢
  exact hpred.1

lemma pendingPairCount_zero (db : DB) (s f : Nat)
    (h : hasPendingRequest db s f = false) : pendingPairCount db s f = 0 := by
  rw [pendingPairCount, List.length_eq_zero, List.filter_eq_nil_iff]
  intro r hr hpred
  rw [hasPendingRequest] at h
  have : db.requests.any
      (fun r => r.student == s && r.fee_type == f && r.status == ReqStatus.pending) =
      true := List.any_eq_true.mpr ⟨r, hr, hpred⟩
  rw [h] at this
  exact Bool.false_ne_true this

lemma hasPendingRequest_of_mem (db : DB) (r : PaymentRequestRec)
    (hr : r ∈ db.requests) (hp : r.status = ReqStatus.pending) :
    hasPendingRequest db r.student r.fee_type = true := by
  rw [hasPendingRequest, List.any_eq_true]
  exact ⟨r, hr, by simp [hp]⟩

lemma length_le_one_of_nodup_all_eq {α : Type} (l : List α) (hnd : l.Nodup)
    (h : ∀ a ∈ l, ∀ b ∈ l, a = b) : l.length ≤ 1 := by
  match l with
  | [] => simp
  | [a] => simp
  | a :: b :: t =>
    have hnd1 := (List.nodup_cons.mp hnd).1
    have hab := h a (List.mem_cons_self _ _)
      b (List.mem_cons_of_mem _ (List.mem_cons_self _ _))
    rw [hab] at hnd1
    exact absurd (List.mem_cons_self _ _) hnd1

/-- Prepending a batch of fresh PENDING requests with pairwise-distinct
(student, fee_type) pairs, none of which duplicates an existing pending
request or completed payment, preserves the duplicate-fee invariant. -/
lemma invariant_prepend (db : DB) (new : List PaymentRequestRec)
    (hnodup : new.Nodup)
    (hpend : ∀ r ∈ new, r.status = ReqStatus.pending)
    (hinj : ∀ r1 ∈ new, ∀ r2 ∈ new,
      r1.student = r2.student → r1.fee_type = r2.fee_type → r1 = r2)
    (hfresh : ∀ r ∈ new, hasPendingRequest db r.student r.fee_type = false ∧
      hasCompletedNonVoidPayment db r.student r.fee_type = false)
    (hinv : InvariantDB db) :
    InvariantDB ⟨new ++ db.requests, db.payments⟩ := by
  intro r hr hrp
  have hsplit : pendingPairCount ⟨new ++ db.requests, db.payments⟩
      r.student r.fee_type =
      (new.filter fun r2 => r2.student == r.student &&
        r2.fee_type == r.fee_type && r2.status == ReqStatus.pending).length +
      pendingPairCount db r.student r.fee_type := by
    simp [pendingPairCount, List.filter_append]
  rcases List.mem_append.mp hr with hnew | hold
  · constructor
    · rw [hsplit, pendingPairCount_zero db _ _ (hfresh r hnew).1]
      have hle : (new.filter fun r2 => r2.student == r.student &&
          r2.fee_type == r.fee_type && r2.status == ReqStatus.pending).length ≤ 1 := by
        apply length_le_one_of_nodup_all_eq _ (hnodup.filter _)
        intro a ha b hb
        rw [List.mem_filter] at ha hb
        simp only [Bool.and_eq_true, beq_iff_eq] at ha hb
        exact hinj a ha.1 b hb.1 (ha.2.1.1.trans hb.2.1.1.symm)
          (ha.2.1.2.trans hb.2.1.2.symm)
      omega
    · exact (hfresh r hnew).2
  · have h1 := hinv r hold hrp
    constructor
    · rw [hsplit]
      have hzero : (new.filter fun r2 => r2.student == r.student &&
          r2.fee_type == r.fee_type && r2.status == ReqStatus.pending).length = 0 := by
        rw [List.length_eq_zero, List.filter_eq_nil_iff]
        intro r2 h2 hpred
        simp only [Bool.and_eq_true, beq_iff_eq] at hpred
        have hmem : hasPendingRequest db r2.student r2.fee_type = true := by
          rw [hpred.1.1, hpred.1.2]
          exact hasPendingRequest_of_mem db r hold hrp
        rw [(hfresh r2 h2).1] at hmem
        exact Bool.false_ne_true hmem
      omega
    · exact h1.2

lemma bulkRequestFor_injective (fee : FeeTypeRec) (rids : Nat → String)
    (expAt : Int) : Function.Injective (bulkRequestFor fee rids expAt) :=
  fun _ _ h => congrArg PaymentRequestRec.student h

lemma get_payment_request_eq_of_find (key : String) (db : DB) (rid sig : String)
    (user : UserCtx) (r0 : PaymentRequestRec)
    (hf : findRequest db rid = some r0) :
    get_payment_request key db rid sig user =
      (if !validate_signature key r0.request_id sig then
        Except.error RedeemError.invalidSignature
      else
        match orgScopeOk user r0 with
        | Except.error e => Except.error e
        | Except.ok _ =>
          if r0.status ≠ ReqStatus.pending then
            Except.error (RedeemError.alreadyProcessed r0.status)
          else Except.ok r0) := by
  unfold get_payment_request
  rw [hf]

lemma get_payment_request_ok (key : String) (db : DB) (rid sig : String)
    (user : UserCtx) (req : PaymentRequestRec)
    (h : get_payment_request key db rid sig user = Except.ok req) :
    findRequest db rid = some req ∧ req.status = ReqStatus.pending ∧
      req.request_id = rid := by
  cases hf : findRequest db rid with
  | none => unfold get_payment_request at h; rw [hf] at h; cases h
  | some r0 =>
    rw [get_payment_request_eq_of_find key db rid sig user r0 hf] at h
    have hf2 : db.requests.find?
        (fun (r : PaymentRequestRec) => r.request_id == rid) = some r0 := hf
    have hp0 := List.find?_some hf2
    have hid : r0.request_id = rid := by simpa using hp0
    by_cases hv : validate_signature key r0.request_id sig
    · rw [if_neg (by simp [hv])] at h
      cases ho : orgScopeOk user r0 with
      | error e => rw [ho] at h; cases h
      | ok un =>
        rw [ho] at h
        by_cases hs : r0.status ≠ ReqStatus.pending
        · rw [if_pos hs] at h; cases h
        · rw [if_neg hs] at h
          rw [Except.ok.injEq] at h
          subst h
          exact ⟨rfl, not_not.mp hs, hid⟩
    · rw [if_pos (by simp [Bool.not_eq_true] at hv; simp [hv])] at h
      cases h

lemma orgScopeOk_no_expired (user : UserCtx) (req : PaymentRequestRec) :
    orgScopeOk user req ≠ Except.error RedeemError.expired := by
  unfold orgScopeOk
  repeat' split
  all_goals simp

lemma get_payment_request_no_expired (key : String) (db : DB) (rid sig : String)
    (user : UserCtx) :
    get_payment_request key db rid sig user ≠ Except.error RedeemError.expired := by
  intro h
  cases hf : findRequest db rid with
  | none => unfold get_payment_request at h; rw [hf] at h; cases h
  | some r0 =>
    rw [get_payment_request_eq_of_find key db rid sig user r0 hf] at h
    by_cases hv : validate_signature key r0.request_id sig
    · rw [if_neg (by simp [hv])] at h
      cases ho : orgScopeOk user r0 with
      | error e =>
        rw [ho] at h
        rw [Except.error.injEq] at h
        rw [h] at ho
        exact orgScopeOk_no_expired user r0 ho
      | ok un =>
        rw [ho] at h
        by_cases hs : r0.status ≠ ReqStatus.pending
        · rw [if_pos hs] at h
          cases h
        · rw [if_neg hs] at h
          cases h
    · rw [if_pos (by simp [Bool.not_eq_true] at hv; simp [hv])] at h
      cases h

lemma process_payment_ok (key : String) (db : DB) (rid sig : String)
    (user : UserCtx) (R : Int) (pm notes : String) (now ts : Int)
    (req : PaymentRequestRec)
    (hok : get_payment_request key db rid sig user = Except.ok req)
    (hval : amountReceivedValid req.amount R = true) :
    process_payment key db rid sig user R pm notes now ts =
      (RedeemOutcome.success (redeemPayment db req R pm ts),
        { requests := db.requests.map fun r =>
            if r.request_id == req.request_id then mark_as_paid req now else r
          payments := redeemPayment db req R pm ts :: db.payments }) := by
  simp [process_payment, hok, hval]

lemma redeemPayment_change (db : DB) (req : PaymentRequestRec) (R : Int)
    (pm : String) (ts : Int) (hA : req.amount ≠ 0) (hR : R ≠ 0) :
    (redeemPayment db req R pm ts).change_given = R - req.amount := by
  simp [redeemPayment, paymentSave, hA, hR]

lemma redeemPayment_amount (db : DB) (req : PaymentRequestRec) (R : Int)
    (pm : String) (ts : Int) :
    (redeemPayment db req R pm ts).amount = req.amount ∧
    (redeemPayment db req R pm ts).amount_received = R ∧
    (redeemPayment db req R pm ts).or_number = makeOrNumber db req.request_id ts := by
  unfold redeemPayment paymentSave
  split <;> exact ⟨rfl, rfl, rfl⟩

lemma find_update (l : List PaymentRequestRec) (rid : String)
    (req req2 : PaymentRequestRec)
    (h : l.find? (fun r => r.request_id == rid) = some req)
    (hid : req2.request_id = req.request_id) :
    (l.map fun r => if r.request_id == req.request_id then req2 else r).find?
      (fun r => r.request_id == rid) = some req2 := by
  have hrid : req.request_id = rid := by
    have h2 : l.find? (fun (r : PaymentRequestRec) => r.request_id == rid) =
        some req := h
    have hp0 := List.find?_some h2
    simpa using hp0
  induction l with
  | nil => cases h
  | cons a l ih =>
    rw [List.find?_cons] at h
    by_cases ha : a.request_id = rid
    · have hb : (a.request_id == rid) = true := by simp [ha]
      simp only [hb] at h
      rw [Option.some.injEq] at h
      simp [List.find?_cons, h, hid, hrid]
    · have hb : (a.request_id == rid) = false := by simp [ha]
      simp only [hb] at h
      have hne : (a.request_id == req.request_id) = false := by
        simp only [beq_eq_false_iff_ne, ne_eq]
        rw [hrid]; exact ha
      simp only [List.map_cons, hne, Bool.false_eq_true, if_false,
        List.find?_cons, hb]
      exact ih h

lemma string_append_suffix_ne (a b : String) (hb : 0 < b.length) : a ++ b ≠ a := by
  intro heq
  have hlen := congrArg String.length heq
  rw [String.length_append] at hlen
  omega

/-! ## Claim theorems -/

/-- Claim C2, counterexample: two officers redeem the same PENDING request
concurrently with the interleaving read 0, read 1, commit 0, commit 1
(both reads see PENDING).  Attempt 0 succeeds; attempt 1 — which passed
the still-PENDING check at read time — aborts at commit with the
one-to-one unique-constraint IntegrityError, not with AlreadyProcessed,
refuting "the other N−1 fail with AlreadyProcessed" and the claimed
commit-time compare-and-swap. -/
theorem redemption_already_processed_refuted :
    (concExec [ConcEv.read 0, ConcEv.read 1, ConcEv.commit 0,
        ConcEv.commit 1]).outcomes =
      [(1, ConcOutcome.integrityError), (0, ConcOutcome.success)]
    ∧ ConcOutcome.integrityError ≠ ConcOutcome.alreadyProcessed := by decide

/-- Claim C2, amended: in every interleaving of concurrent redemption
attempts in which some attempt's read precedes its commit, exactly one
attempt succeeds; a loser whose read runs after the winning commit fails
at read with AlreadyProcessed, while a loser that passed the still-PENDING
read check and commits after the winning commit aborts with the
unique-constraint IntegrityError.  The exactly-once guarantee comes from
the store's unique constraint at commit, not from a commit-time
compare-and-swap in the code. -/
theorem redemption_exactly_once (l1 l2 l3 : List ConcEv) (i : Nat) :
    countSuccess (concExec (l1 ++ ConcEv.read i :: (l2 ++ ConcEv.commit i :: l3))) = 1
    ∧ (∀ st j, st.paid = true →
        concStep st (ConcEv.read j) =
          { st with outcomes := (j, ConcOutcome.alreadyProcessed) :: st.outcomes })
    ∧ (∀ st j, st.paid = true → j ∈ st.readSet →
        concStep st (ConcEv.commit j) =
          { st with outcomes := (j, ConcOutcome.integrityError) :: st.outcomes }) := by
  refine ⟨?_, ?_, ?_⟩
  · have h := concFold_countSuccess
      (l1 ++ ConcEv.read i :: (l2 ++ ConcEv.commit i :: l3)) concInit
      (by simp [countSuccess, concInit])
    have hp := conc_read_commit_paid l1 l2 l3 i
    unfold concExec at hp ⊢
    rw [h, hp]
    rfl
  · intro st j hp
    simp [concStep, hp]
  · intro st j hp hm
    simp [concStep, hp, hm]

theorem redemption_exactly_once_witness :
    countSuccess (concExec ([ConcEv.read 0] ++ ConcEv.read 1 ::
        ([] ++ ConcEv.commit 1 :: [ConcEv.commit 0]))) = 1
    ∧ concStep ⟨true, [2], []⟩ (ConcEv.read 7) =
        ⟨true, [2], [(7, ConcOutcome.alreadyProcessed)]⟩
    ∧ concStep ⟨true, [2], []⟩ (ConcEv.commit 2) =
        ⟨true, [2], [(2, ConcOutcome.integrityError)]⟩ :=
  ⟨(redemption_exactly_once [ConcEv.read 0] [] [ConcEv.commit 0] 1).1,
   (redemption_exactly_once [] [] [] 0).2.1 ⟨true, [2], []⟩ 7 rfl,
   (redemption_exactly_once [] [] [] 0).2.2 ⟨true, [2], []⟩ 2 rfl (by decide)⟩

/-- Claim C5, counterexample: an actor whose officer profile lacks
`can_promote_officers` (a super officer without promotion authority, which
passes the view's `test_func`) requests granting that capability; the
promotion is NOT rejected — it proceeds, creating the target's Officer
record with the requested capability silently downgraded to False. -/
theorem privilege_ceiling_refuted :
    (promote_student c5Actor ⟨[], []⟩ 7 1 "Treasurer" c5Flags).1 =
      PromoteOutcome.promoted ⟨true, false, false, false, false⟩ true
    ∧ officerLookup (promote_student c5Actor ⟨[], []⟩ 7 1 "Treasurer" c5Flags).2 7 =
        some ⟨1, "Treasurer", ⟨true, false, false, false, false⟩⟩ := by decide

/-- Claim C5, amended: for a non-superuser actor holding an officer
profile, promoting into the actor's own organization always proceeds (it
is never rejected over a requested capability); the granted
`can_promote_officers` is the requested flag AND-ed with the actor's, and
the granted `is_super_officer` the requested flag AND-ed with the actor's,
so on these two capabilities the created Officer never exceeds the acting
officer's ceiling.  (Superusers, and non-officer staff, are exempt from
the downgrade and may grant freely.) -/
theorem privilege_ceiling_amended (a : Actor) (o : OfficerEntry)
    (st : PromoState) (u org2 : Nat) (role : String) (fl : CapFlags)
    (hsu : a.isSuperuser = false) (ho : a.officer = some o)
    (htf : promoteTestFunc a = true) (horg : org2 = o.organization) :
    (promote_student a st u org2 role fl).1 =
      PromoteOutcome.promoted
        { fl with
          can_promote_officers := fl.can_promote_officers && o.flags.can_promote_officers
          is_super_officer := fl.is_super_officer && o.flags.is_super_officer }
        (officerLookup st u).isNone
    ∧ ((fl.can_promote_officers && o.flags.can_promote_officers) = true →
        o.flags.can_promote_officers = true)
    ∧ ((fl.is_super_officer && o.flags.is_super_officer) = true →
        o.flags.is_super_officer = true) := by
  refine ⟨?_, fun h => ((Bool.and_eq_true _ _).mp h).2,
    fun h => ((Bool.and_eq_true _ _).mp h).2⟩
  simp [promote_student, htf, hsu, ho, horg]

theorem privilege_ceiling_amended_witness :
    (promote_student c5Actor ⟨[], []⟩ 9 1 "Auditor" c5Flags).1 =
      PromoteOutcome.promoted
        { c5Flags with
          can_promote_officers :=
            c5Flags.can_promote_officers && c5Officer.flags.can_promote_officers
          is_super_officer :=
            c5Flags.is_super_officer && c5Officer.flags.is_super_officer }
        (officerLookup (⟨[], []⟩ : PromoState) 9).isNone
    ∧ ((c5Flags.can_promote_officers && c5Officer.flags.can_promote_officers) = true →
        c5Officer.flags.can_promote_officers = true)
    ∧ ((c5Flags.is_super_officer && c5Officer.flags.is_super_officer) = true →
        c5Officer.flags.is_super_officer = true) :=
  privilege_ceiling_amended c5Actor c5Officer ⟨[], []⟩ 9 1 "Auditor" c5Flags
    rfl rfl (by decide) rfl

/-- Claim C6: the spec-modelled `get_accessible_organizations` returns, for
a COLLEGE-level node, the node itself plus all of its PROGRAM-level
children; for a PROGRAM-level node with non-"ALL" affiliation, exactly the
singleton of the node; for a PROGRAM-level node with affiliation "ALL",
the node plus its PROGRAM-level children (college-like fan-out); and every
node's accessible set contains the node itself. -/
theorem accessible_organizations_spec (arena : List OrgNode) (o : OrgNode) :
    (o.hierarchy_level = HLevel.college →
      get_accessible_organizations arena o = o :: programChildren arena o)
    ∧ (o.hierarchy_level = HLevel.program → o.program_affiliation ≠ some "ALL" →
      get_accessible_organizations arena o = [o])
    ∧ (o.hierarchy_level = HLevel.program → o.program_affiliation = some "ALL" →
      get_accessible_organizations arena o = o :: programChildren arena o)
    ∧ o ∈ get_accessible_organizations arena o := by
  refine ⟨fun h => by simp [get_accessible_organizations, h],
    fun h h2 => by simp [get_accessible_organizations, h, h2],
    fun h h2 => by simp [get_accessible_organizations, h, h2], ?_⟩
  unfold get_accessible_organizations
  split
  · exact List.mem_cons_self _ _
  · split
    · exact List.mem_cons_self _ _
    · simp

theorem accessible_organizations_spec_witness :
    get_accessible_organizations c6Arena c6College =
      c6College :: programChildren c6Arena c6College
    ∧ get_accessible_organizations c6Arena c6ProgramCS = [c6ProgramCS] :=
  ⟨(accessible_organizations_spec c6Arena c6College).1 rfl,
   (accessible_organizations_spec c6Arena c6ProgramCS).2.1 rfl (by decide)⟩

/-- Claim C9: a promotion that succeeded (`promoted`) followed by a
demotion of the same account that succeeded (`demoted`) leaves the account
with no Officer record at all (the row is deleted, not flag-flipped, so
the account is re-promotable) and with the denormalized
`UserProfile.is_officer` flag equal to false. -/
theorem promote_then_demote_restores (a1 a2 : Actor) (acc : List Nat)
    (st : PromoState) (u org : Nat) (role : String) (fl fl2 : CapFlags) (c : Bool)
    (hp : (promote_student a1 st u org role fl).1 = PromoteOutcome.promoted fl2 c)
    (hd : (demote_officer a2 acc (promote_student a1 st u org role fl).2 u).1 =
        DemoteOutcome.demoted) :
    officerLookup
        (demote_officer a2 acc (promote_student a1 st u org role fl).2 u).2 u = none
    ∧ profileLookup
        (demote_officer a2 acc (promote_student a1 st u org role fl).2 u).2 u =
      some false := by
  generalize (promote_student a1 st u org role fl).2 = st1 at hd ⊢
  unfold demote_officer at hd ⊢
  by_cases htf : promoteTestFunc a2
  · cases hol : officerLookup st1 u with
    | none => simp [htf, hol] at hd
    | some oe =>
      by_cases hs : demoteScopeOk a2 acc oe
      · simp only [htf, Bool.not_true, Bool.false_eq_true, if_false, hol, hs]
        constructor
        · simp [officerLookup, findRemove]
        · simp [profileLookup, findSet]
      · simp [htf, hol, hs] at hd
  · simp [htf] at hd

/-- Claim C3: both student-side creation paths reject with the
duplicate-fee error — leaving the state unchanged — whenever the student
already holds a PENDING request or a COMPLETED payment for the fee type;
and all three creation operations (student QR generation, quick
generation, bulk posting) preserve the invariant that at most one PENDING
request exists per (student, fee_type) pair and that no PENDING request
coexists with a completed non-void Payment for the same fee type. -/
theorem duplicate_fee_guard (key : String) (db : DB) (stu : Nat)
    (fee : FeeTypeRec) (rid nonce : String) (now : Int)
    (students : List Nat) (rids : Nat → String) (expAt : Int) :
    ((hasPendingRequest db stu fee.id || hasCompletedPayment db stu fee.id) = true →
      generate_qr key db stu fee rid now =
        (CreateOutcome.rejected CreateError.duplicateFeeRequest, db)
      ∧ quick_generate_qr key db stu fee true rid nonce now =
        (CreateOutcome.rejected CreateError.duplicateFeeRequest, db))
    ∧ (InvariantDB db → InvariantDB (generate_qr key db stu fee rid now).2)
    ∧ (InvariantDB db →
        InvariantDB (quick_generate_qr key db stu fee true rid nonce now).2)
    ∧ (InvariantDB db →
        InvariantDB (post_bulk_payment db fee students rids expAt).1) := by
  refine ⟨?_, ?_, ?_, ?_⟩
  · intro h
    constructor
    · simp [generate_qr, h]
    · rcases Bool.or_eq_true _ _ |>.mp h with hp | hc
      · simp [quick_generate_qr, hp]
      · by_cases hp2 : hasPendingRequest db stu fee.id <;>
          simp [quick_generate_qr, hp2, hc]
  · intro hinv
    by_cases hdup : (hasPendingRequest db stu fee.id ||
        hasCompletedPayment db stu fee.id) = true
    · simpa [generate_qr, hdup] using hinv
    · rw [Bool.or_eq_true, not_or, Bool.not_eq_true, Bool.not_eq_true] at hdup
      have hnv : hasCompletedNonVoidPayment db stu fee.id = false := by
        cases h2 : hasCompletedNonVoidPayment db stu fee.id
        · rfl
        · exact absurd (hasCompletedNonVoid_le db stu fee.id h2)
            (by simp [hdup.2])
      simp only [generate_qr, hdup.1, hdup.2, Bool.or_self, Bool.false_eq_true,
        if_false]
      exact invariant_prepend db [_] (List.nodup_singleton _)
        (by intro r hr; rw [List.mem_singleton] at hr; rw [hr])
        (by intro r1 h1 r2 h2
            rw [List.mem_singleton] at h1 h2; rw [h1, h2]; intro _ _; rfl)
        (by intro r hr; rw [List.mem_singleton] at hr; rw [hr]
            exact ⟨hdup.1, hnv⟩)
        hinv
  · intro hinv
    by_cases hp2 : hasPendingRequest db stu fee.id
    · simpa [quick_generate_qr, hp2] using hinv
    · by_cases hc2 : hasCompletedPayment db stu fee.id
      · simpa [quick_generate_qr, hp2, hc2] using hinv
      · rw [Bool.not_eq_true] at hp2 hc2
        have hnv : hasCompletedNonVoidPayment db stu fee.id = false := by
          cases h2 : hasCompletedNonVoidPayment db stu fee.id
          · rfl
          · exact absurd (hasCompletedNonVoid_le db stu fee.id h2) (by simp [hc2])
        simp only [quick_generate_qr, hp2, hc2, Bool.not_true, Bool.false_eq_true,
          if_false]
        exact invariant_prepend db [_] (List.nodup_singleton _)
          (by intro r hr; rw [List.mem_singleton] at hr; rw [hr])
          (by intro r1 h1 r2 h2
              rw [List.mem_singleton] at h1 h2; rw [h1, h2]; intro _ _; rfl)
          (by intro r hr; rw [List.mem_singleton] at hr; rw [hr]
              exact ⟨hp2, hnv⟩)
          hinv
  · intro hinv
    have hnd : (bulkEligible db fee students).Nodup :=
      List.Nodup.filter _ (List.nodup_dedup students)
    show InvariantDB
      ⟨(bulkEligible db fee students).map (bulkRequestFor fee rids expAt) ++
          db.requests, db.payments⟩
    apply invariant_prepend db _ (hnd.map (bulkRequestFor_injective fee rids expAt))
      ?_ ?_ ?_ hinv
    · intro r hr
      rw [List.mem_map] at hr
      obtain ⟨s, _, rfl⟩ := hr
      rfl
    · intro r1 h1 r2 h2 hs _
      rw [List.mem_map] at h1 h2
      obtain ⟨s1, _, rfl⟩ := h1
      obtain ⟨s2, _, rfl⟩ := h2
      exact congrArg (bulkRequestFor fee rids expAt) hs
    · intro r hr
      rw [List.mem_map] at hr
      obtain ⟨s, hs, rfl⟩ := hr
      rw [bulkEligible, List.mem_filter] at hs
      have h2 := hs.2
      rw [Bool.and_eq_true, Bool.not_eq_true', Bool.not_eq_true'] at h2
      exact ⟨h2.2, h2.1⟩

/-- Claim C4: a redemption that reaches a request is only legal from
PENDING (`get_payment_request` only succeeds on a PENDING request); with a
positive snapshotted amount A (FeeType.amount carries
`MinValueValidator(0.01)`, so every snapshotted amount is positive), an
`amount_received` R below A is rejected with the insufficient-amount error
leaving the state unchanged, and R ≥ A produces a Payment whose
`change_given` is exactly R − A — integer (centavo) arithmetic, no
floating-point rounding. -/
theorem redeem_round_trip (key : String) (db : DB) (rid sig : String)
    (user : UserCtx) (R : Int) (pm notes : String) (now ts : Int)
    (req : PaymentRequestRec)
    (hok : get_payment_request key db rid sig user = Except.ok req)
    (hpos : 0 < req.amount) :
    req.status = ReqStatus.pending
    ∧ (R < req.amount →
        process_payment key db rid sig user R pm notes now ts =
          (RedeemOutcome.failure RedeemError.insufficientAmount, db))
    ∧ (req.amount ≤ R →
        (process_payment key db rid sig user R pm notes now ts).1 =
          RedeemOutcome.success (redeemPayment db req R pm ts)
        ∧ (redeemPayment db req R pm ts).change_given = R - req.amount
        ∧ (redeemPayment db req R pm ts).amount = req.amount
        ∧ (redeemPayment db req R pm ts).amount_received = R) := by
  obtain ⟨_, hpend, _⟩ := get_payment_request_ok key db rid sig user req hok
  refine ⟨hpend, ?_, ?_⟩
  · intro hlt
    have hbad : amountReceivedValid req.amount R = false := by
      simp [amountReceivedValid, hpos.ne', hlt]
    simp [process_payment, hok, hbad]
  · intro hge
    have hval : amountReceivedValid req.amount R = true := by
      simp [amountReceivedValid, not_lt.mpr hge]
    refine ⟨by rw [process_payment_ok key db rid sig user R pm notes now ts req hok hval],
      redeemPayment_change db req R pm ts hpos.ne' (lt_of_lt_of_le hpos hge).ne',
      (redeemPayment_amount db req R pm ts).1,
      (redeemPayment_amount db req R pm ts).2.1⟩

theorem redeem_round_trip_witness :
    demoReq.status = ReqStatus.pending
    ∧ ((15000 : Int) < demoReq.amount →
        process_payment "k" demoDb wRid (create_signature "k" wRid) demoUser
          15000 "CASH" "" 2000 999 =
          (RedeemOutcome.failure RedeemError.insufficientAmount, demoDb))
    ∧ (demoReq.amount ≤ (15000 : Int) →
        (process_payment "k" demoDb wRid (create_signature "k" wRid) demoUser
          15000 "CASH" "" 2000 999).1 =
          RedeemOutcome.success (redeemPayment demoDb demoReq 15000 "CASH" 999)
        ∧ (redeemPayment demoDb demoReq 15000 "CASH" 999).change_given =
            15000 - demoReq.amount
        ∧ (redeemPayment demoDb demoReq 15000 "CASH" 999).amount = demoReq.amount
        ∧ (redeemPayment demoDb demoReq 15000 "CASH" 999).amount_received = 15000) :=
  redeem_round_trip "k" demoDb wRid (create_signature "k" wRid) demoUser
    15000 "CASH" "" 2000 999 demoReq (by decide) (by decide)

/-- Claim C7: every successful redemption assigns the Payment the OR
number `makeOrNumber`: the literal "OR-" followed by the request id with
its hyphens stripped, upper-cased and truncated to 12 characters, and a
"-(unix timestamp)" suffix is appended if and only if that derived number
is already in use by an existing Payment. -/
theorem or_number_spec (key : String) (db : DB) (rid sig : String)
    (user : UserCtx) (R : Int) (pm notes : String) (now ts : Int)
    (req : PaymentRequestRec)
    (hok : get_payment_request key db rid sig user = Except.ok req)
    (hval : amountReceivedValid req.amount R = true) :
    (process_payment key db rid sig user R pm notes now ts).1 =
      RedeemOutcome.success (redeemPayment db req R pm ts)
    ∧ (redeemPayment db req R pm ts).or_number = makeOrNumber db req.request_id ts
    ∧ makeOrNumber db req.request_id ts =
        (if orNumberExists db ("OR-" ++ stripDashesUpper12 req.request_id) then
          "OR-" ++ stripDashesUpper12 req.request_id ++ "-" ++ toString ts
        else "OR-" ++ stripDashesUpper12 req.request_id)
    ∧ (makeOrNumber db req.request_id ts ≠
          "OR-" ++ stripDashesUpper12 req.request_id ↔
        orNumberExists db ("OR-" ++ stripDashesUpper12 req.request_id) = true) := by
  refine ⟨by rw [process_payment_ok key db rid sig user R pm notes now ts req hok hval],
    (redeemPayment_amount db req R pm ts).2.2, rfl, ?_⟩
  constructor
  · intro hne
    cases hex : orNumberExists db ("OR-" ++ stripDashesUpper12 req.request_id)
    · exact absurd (by simp [makeOrNumber, hex]) hne
    · rfl
  · intro hex
    rw [makeOrNumber]
    simp only [hex, if_true]
    rw [String.append_assoc ("OR-" ++ stripDashesUpper12 req.request_id) "-"
      (toString ts)]
    apply string_append_suffix_ne
    rw [String.length_append]
    have h1 : ("-" : String).length = 1 := rfl
    omega

theorem or_number_spec_witness :
    (process_payment "k" demoDb wRid (create_signature "k" wRid) demoUser
      20000 "CASH" "" 2000 999).1 =
      RedeemOutcome.success (redeemPayment demoDb demoReq 20000 "CASH" 999)
    ∧ (redeemPayment demoDb demoReq 20000 "CASH" 999).or_number =
        "OR-3F2504E04F89" := by
  have h := or_number_spec "k" demoDb wRid (create_signature "k" wRid) demoUser
    20000 "CASH" "" 2000 999 demoReq (by decide) (by decide)
  refine ⟨h.1, ?_⟩
  rw [h.2.1, h.2.2.1]
  decide

/-- Claim C10: redemption never fails with an Expired error: no branch of
`get_payment_request` or `process_payment` produces `RedeemError.expired`;
a request on which `is_expired` holds (its `expires_at` lies in the past —
as for every request minted by the student QR-generation flows, which set
`expires_at` to the creation instant) is still redeemed successfully
whenever the signature, organization-scope, status, and amount checks
pass, and its status is flipped to PAID, never to EXPIRED. -/
theorem redemption_ignores_expiry (key : String) (db : DB) (rid sig : String)
    (user : UserCtx) (R : Int) (pm notes : String) (now ts : Int)
    (req : PaymentRequestRec)
    (hok : get_payment_request key db rid sig user = Except.ok req)
    (hexp : is_expired req now = true)
    (hge : req.amount ≤ R) :
    ((process_payment key db rid sig user R pm notes now ts).1 =
      RedeemOutcome.success (redeemPayment db req R pm ts)
    ∧ findRequest (process_payment key db rid sig user R pm notes now ts).2 rid =
        some (mark_as_paid req now)
    ∧ (mark_as_paid req now).status = ReqStatus.paid)
    ∧ (∀ (key2 : String) (db2 : DB) (rid2 sig2 : String) (user2 : UserCtx)
        (R2 : Int) (pm2 notes2 : String) (now2 ts2 : Int),
        (process_payment key2 db2 rid2 sig2 user2 R2 pm2 notes2 now2 ts2).1 ≠
          RedeemOutcome.failure RedeemError.expired)
    ∧ (∀ (key2 : String) (db2 : DB) (stu2 : Nat) (fee2 : FeeTypeRec)
        (rid2 : String) (t2 : Int) (r2 : PaymentRequestRec) (db3 : DB),
        generate_qr key2 db2 stu2 fee2 rid2 t2 = (CreateOutcome.created r2, db3) →
          r2.expires_at = t2)
    ∧ (∀ (key2 : String) (db2 : DB) (stu2 : Nat) (fee2 : FeeTypeRec) (app : Bool)
        (rid2 n2 : String) (t2 : Int) (r2 : PaymentRequestRec) (db3 : DB),
        quick_generate_qr key2 db2 stu2 fee2 app rid2 n2 t2 =
          (CreateOutcome.created r2, db3) → r2.expires_at = t2) := by
  obtain ⟨hf, _, hid⟩ := get_payment_request_ok key db rid sig user req hok
  have hval : amountReceivedValid req.amount R = true := by
    simp [amountReceivedValid, not_lt.mpr hge]
  have hpp := process_payment_ok key db rid sig user R pm notes now ts req hok hval
  refine ⟨⟨by rw [hpp], ?_, rfl⟩, ?_, ?_, ?_⟩
  · rw [hpp]
    have hf2 : db.requests.find?
        (fun (r : PaymentRequestRec) => r.request_id == rid) = some req := hf
    exact find_update db.requests rid req (mark_as_paid req now) hf2 rfl
  · intro key2 db2 rid2 sig2 user2 R2 pm2 notes2 now2 ts2
    unfold process_payment
    cases hg : get_payment_request key2 db2 rid2 sig2 user2 with
    | error e =>
      intro hcon
      simp only [RedeemOutcome.failure.injEq] at hcon
      exact get_payment_request_no_expired key2 db2 rid2 sig2 user2 (hcon ▸ hg)
    | ok r2 =>
      by_cases hv2 : amountReceivedValid r2.amount R2 = true <;>
        simp [hv2]
  · intro key2 db2 stu2 fee2 rid2 t2 r2 db3 hcr
    unfold generate_qr at hcr
    by_cases hdup : (hasPendingRequest db2 stu2 fee2.id ||
        hasCompletedPayment db2 stu2 fee2.id) = true
    · rw [if_pos hdup] at hcr
      simp at hcr
    · rw [if_neg hdup] at hcr
      rw [Prod.mk.injEq] at hcr
      have h2 := hcr.1
      rw [CreateOutcome.created.injEq] at h2
      rw [← h2]
  · intro key2 db2 stu2 fee2 app rid2 n2 t2 r2 db3 hcr
    unfold quick_generate_qr at hcr
    by_cases h1 : (!app) = true
    · rw [if_pos h1] at hcr
      simp at hcr
    · rw [if_neg h1] at hcr
      by_cases h2 : hasPendingRequest db2 stu2 fee2.id = true
      · rw [if_pos h2] at hcr
        simp at hcr
      · rw [if_neg h2] at hcr
        by_cases h3 : hasCompletedPayment db2 stu2 fee2.id = true
        · rw [if_pos h3] at hcr
          simp at hcr
        · rw [if_neg h3] at hcr
          rw [Prod.mk.injEq] at hcr
          have h4 := hcr.1
          rw [CreateOutcome.created.injEq] at h4
          rw [← h4]

theorem promote_then_demote_restores_witness :
    officerLookup
        (demote_officer superActor []
          (promote_student superActor ⟨[], []⟩ 7 3 "Secretary" c5Flags).2 7).2 7 = none
    ∧ profileLookup
        (demote_officer superActor []
          (promote_student superActor ⟨[], []⟩ 7 3 "Secretary" c5Flags).2 7).2 7 =
      some false :=
  promote_then_demote_restores superActor superActor [] ⟨[], []⟩ 7 3 "Secretary"
    c5Flags c5Flags true (by decide) (by decide)

theorem duplicate_fee_guard_witness :
    (generate_qr "k" c3PendingDb 5 demoFee "r2" 0 =
        (CreateOutcome.rejected CreateError.duplicateFeeRequest, c3PendingDb)
      ∧ quick_generate_qr "k" c3PendingDb 5 demoFee true "r2" "n" 0 =
        (CreateOutcome.rejected CreateError.duplicateFeeRequest, c3PendingDb))
    ∧ InvariantDB (generate_qr "k" emptyDb 5 demoFee "r2" 0).2
    ∧ InvariantDB (quick_generate_qr "k" emptyDb 5 demoFee true "r2" "n" 0).2
    ∧ InvariantDB
        (post_bulk_payment emptyDb demoFee [5, 6] (fun s => toString s) 0).1 :=
  ⟨(duplicate_fee_guard "k" c3PendingDb 5 demoFee "r2" "n" 0 []
      (fun s => toString s) 0).1 (by decide),
   (duplicate_fee_guard "k" emptyDb 5 demoFee "r2" "n" 0 []
      (fun s => toString s) 0).2.1 (by decide),
   (duplicate_fee_guard "k" emptyDb 5 demoFee "r2" "n" 0 []
      (fun s => toString s) 0).2.2.1 (by decide),
   (duplicate_fee_guard "k" emptyDb 5 demoFee "r2" "n" 0 [5, 6]
      (fun s => toString s) 0).2.2.2 (by decide)⟩

theorem redemption_ignores_expiry_witness :
    is_expired demoReq 2000 = true
    ∧ ((process_payment "k" demoDb wRid (create_signature "k" wRid) demoUser
        20000 "CASH" "x" 2000 999).1 =
        RedeemOutcome.success (redeemPayment demoDb demoReq 20000 "CASH" 999)
      ∧ findRequest (process_payment "k" demoDb wRid (create_signature "k" wRid)
          demoUser 20000 "CASH" "x" 2000 999).2 wRid =
          some (mark_as_paid demoReq 2000)
      ∧ (mark_as_paid demoReq 2000).status = ReqStatus.paid) := by
  have h := redemption_ignores_expiry "k" demoDb wRid (create_signature "k" wRid)
    demoUser 20000 "CASH" "x" 2000 999 demoReq (by decide) (by decide) (by decide)
  exact ⟨by decide, h.1⟩

/-- Claim C1: the stored `qr_signature` validates against
`str(request_id)` only for the `GenerateQRPaymentView` flow (see
`generate_qr_signature_valid`).  `QuickGenerateQRView.post` signs a fresh
random 12-hex-character nonce instead of the request id, so the stored
signature fails `validate_signature(str(request_id), ·)` and the minted
QR is rejected at redemption with InvalidSignature — contradicting the
spec contract and the repository's own repair script `fix_signatures.py`,
which rewrites exactly such rows to `create_signature(str(request_id))`.
Bulk posting stores an empty `qr_signature`, which never validates
either. -/
theorem qr_signature_code_bug :
    c1Quick.1 = CreateOutcome.created c1QuickReq
    ∧ validate_signature "k" c1QuickReq.request_id c1QuickReq.qr_signature = false
    ∧ (process_payment "k" c1Quick.2 wRid c1QuickReq.qr_signature demoUser 20000
        "CASH" "" 2000 999).1 = RedeemOutcome.failure RedeemError.invalidSignature
    ∧ (post_bulk_payment emptyDb demoFee [5] (fun _ => wRid) 500).1.requests.map
        (fun r => r.qr_signature) = [""]
    ∧ validate_signature "k" wRid "" = false :=
  ⟨rfl, by decide, by decide, rfl, by decide⟩

/-- Helper (claim C1): the student QR-generation flow of
`GenerateQRPaymentView.form_valid` does mint
`qr_signature = create_signature(str(request_id))`, which always
validates. -/
theorem generate_qr_signature_valid (key : String) (db : DB) (stu : Nat)
    (fee : FeeTypeRec) (rid : String) (now : Int) (r : PaymentRequestRec)
    (db2 : DB)
    (h : generate_qr key db stu fee rid now = (CreateOutcome.created r, db2)) :
    validate_signature key r.request_id r.qr_signature = true := by
  unfold generate_qr at h
  by_cases hdup : (hasPendingRequest db stu fee.id ||
      hasCompletedPayment db stu fee.id) = true
  · rw [if_pos hdup] at h
    simp at h
  · rw [if_neg hdup] at h
    rw [Prod.mk.injEq] at h
    have h2 := h.1
    rw [CreateOutcome.created.injEq] at h2
    rw [← h2]
    simp [validate_signature]

/-- Helper (claim C8): verification of a correctly signed message
succeeds, for every key and every message. -/
theorem validate_signature_roundtrip (key m : String) :
    validate_signature key m (create_signature key m) = true := by
  simp [validate_signature]

/-- Helper (claim C8): tamper detection at a concrete instance — the
signature of `m ++ "x"` does not verify against `m`. -/
theorem tamper_detection_instance :
    validate_signature "key" "3f2504e0"
      (create_signature "key" ("3f2504e0" ++ "x")) = false := by decide

end UniPay
